import Mathlib

set_option maxRecDepth 10000

/-!
Verification development for the x402 payment client of the Galaksio
dashboard.  The definitions below are shallow embeddings of the
TypeScript source:

* `x402-client.ts` — `getChainIdFromNetwork`, `signWithMetaMask`,
  `createX402Payment`, `calculateRelayFee`, `calculateTotalAmount`,
  `revokeApproval`;
* `broker-api.ts` (dashboard helper) — `brokerRequestWithPayment`;
* `utils/httpayer.ts` — `fetchWith402`.

Conventions of the embedding:

* JS strings are Lean `String`s; a possibly-`undefined` JSON field is an
  `Option String`, and `jsStr` models the `String(x)` coercion
  (`String(undefined) = "undefined"`).
* Machine numbers that the source uses as currency amounts are modelled
  as exact rationals (`ℚ`); unix timestamps as `Nat`.
* Effectful calls (`fetch`, `window.ethereum.request`, `Date.now`,
  `crypto.getRandomValues`, `setTimeout`) are modelled by threading an
  explicit environment value that records what the outside world
  returned; the functions below are the pure data flow of the source.
-/

namespace X402

/-- Models the JS `String(x)` coercion on a possibly-`undefined` value:
`String(undefined)` is the string `"undefined"`. -/
def jsStr : Option String → String
  | some s => s
  | none => "undefined"

/-- One entry of the `accepts` array of an `X402PaymentRequirements`
challenge (x402-client.ts, interface `X402PaymentRequirements`).  The
three fields that the spec calls required are modelled as
`Option String` because the source performs no schema validation on the
server-provided JSON, so any of them may be absent at runtime.  The
optional metadata fields (resource, description, mimeType,
maxTimeoutSeconds) are never read by the payment core and are omitted. -/
structure PaymentOption where
  scheme : String
  network : String
  payTo : Option String
  asset : Option String
  maxAmountRequired : Option String
  deriving DecidableEq

/-- The 402 challenge body (x402-client.ts, `X402PaymentRequirements`). -/
structure X402PaymentRequirements where
  x402Version : Nat
  accepts : List PaymentOption
  deriving DecidableEq

/-- UI-facing summary of a completed signing
(x402-client.ts, `PaymentInfo`). -/
structure PaymentInfo where
  network : String
  spender : String
  asset : String
  userAddress : String
  deriving DecidableEq

/-- `getChainIdFromNetwork` (x402-client.ts): fixed lookup table from a
lower-cased network label to a chain id, defaulting to 43114 (Avalanche
C-Chain) for unrecognized labels.  `network.toLowerCase()` is modelled
with `Char.toLower` on the character list (the labels involved are
ASCII). -/
def getChainIdFromNetwork (network : String) : Nat :=
  let n : String := ⟨network.data.map Char.toLower⟩
  if n = "avalanche" then 43114
  else if n = "avalanche-c" then 43114
  else if n = "avalanche-c-chain" then 43114
  else if n = "avax" then 43114
  else if n = "base" then 8453
  else if n = "base-mainnet" then 8453
  else if n = "base-sepolia" then 84532
  else if n = "ethereum" then 1
  else if n = "eth-mainnet" then 1
  else if n = "polygon" then 137
  else if n = "polygon-mainnet" then 137
  else if n = "arbitrum" then 42161
  else if n = "optimism" then 10
  else 43114

/-- The chain id hard-coded by `signWithMetaMask`
(x402-client.ts: `// Force Avalanche C-Chain (43114)`). -/
def targetChainId : Nat := 43114

/-- Environment data consumed by one run of `signWithMetaMask`: the
current unix time (`Math.floor(Date.now() / 1000)`), the 32 random
bytes delivered by `crypto.getRandomValues`, and the signature string
returned by the wallet's `eth_signTypedData_v4` call. -/
structure SignContext where
  now : Nat
  nonceBytes : List Nat
  signature : String
  deriving DecidableEq

/-- The EIP-712 signing domain built by `signWithMetaMask`
(x402-client.ts, `const domain = ...`). -/
structure Eip712Domain where
  name : String
  version : String
  chainId : Nat
  verifyingContract : Option String
  deriving DecidableEq

/-- `signWithMetaMask`'s domain construction: name and version are fixed
("USD Coin" / "2"), the chain id is the hard-coded `targetChainId`
(the source does not consult `getChainIdFromNetwork` here), and the
verifying contract is the option's `asset` field. -/
def buildDomain (paymentOption : PaymentOption) : Eip712Domain :=
  { name := "USD Coin"
    version := "2"
    chainId := targetChainId
    verifyingContract := paymentOption.asset }

/-- One lower-case hex digit, as produced by `Number.toString(16)`. -/
def hexDigit (n : Nat) : Char :=
  if n < 10 then Char.ofNat (48 + n) else Char.ofNat (87 + n)

/-- `b.toString(16).padStart(2, '0')` for a byte `b < 256`. -/
def byteHex (b : Nat) : List Char :=
  [hexDigit (b / 16), hexDigit (b % 16)]

/-- The nonce string built by `signWithMetaMask`:
`'0x' + Array.from(nonceBytes).map(b => b.toString(16).padStart(2, '0')).join('')`. -/
def nonceHex (bytes : List Nat) : String :=
  ⟨'0' :: 'x' :: (bytes.map byteHex).flatten⟩

/-- The EIP-3009 `TransferWithAuthorization` message built by
`signWithMetaMask` (x402-client.ts, `const message = ...`).  `to` and
`value` hold the option's fields verbatim (still `Option` because the
source copies the raw JSON values). -/
structure AuthMessage where
  fromAddr : String
  toAddr : Option String
  value : Option String
  validAfter : Nat
  validBefore : Nat
  nonce : String
  deriving DecidableEq

/-- `signWithMetaMask`'s message construction: `from` is the user
address, `to`/`value` are copied verbatim from the option, the validity
window is `[now, now + 900]`, and the nonce is the hex encoding of the
32 random bytes. -/
def buildMessage (paymentOption : PaymentOption) (userAddress : String)
    (ctx : SignContext) : AuthMessage :=
  { fromAddr := userAddress
    toAddr := paymentOption.payTo
    value := paymentOption.maxAmountRequired
    validAfter := ctx.now
    validBefore := ctx.now + 900
    nonce := nonceHex ctx.nonceBytes }

/-- The `authorization` object of the x402 payment header
(x402-client.ts, `const paymentData = ...`).  `from` and `to` are spelled
`fromAddr`/`toAddr` because they are reserved words in Lean/Mathlib. -/
structure Authorization where
  fromAddr : String
  toAddr : String
  value : String
  validAfter : String
  validBefore : String
  nonce : String
  deriving DecidableEq

/-- The `payload` object of the x402 payment header. -/
structure PaymentPayload where
  signature : String
  authorization : Authorization
  deriving DecidableEq

/-- The x402 payment header object built by `signWithMetaMask`
(`paymentData`).  The source always sets `x402Version: 1`; that
constant field lives in the serializer. -/
structure PaymentData where
  scheme : String
  network : String
  payload : PaymentPayload
  deriving DecidableEq

/-- `signWithMetaMask`'s `paymentData` value: scheme `'exact'`, network
forced to `'avalanche'`, and the authorization fields stringified as in
the source (`value: String(paymentOption.maxAmountRequired)` etc.).
The source writes `to: paymentOption.payTo` without coercion; `jsStr`
is used here so the embedding stays total when the field is absent —
theorems about the serialized form assume the field present, where
`jsStr` is the identity. -/
def buildPaymentData (paymentOption : PaymentOption) (userAddress : String)
    (ctx : SignContext) : PaymentData :=
  { scheme := "exact"
    network := "avalanche"
    payload :=
      { signature := ctx.signature
        authorization :=
          { fromAddr := userAddress
            toAddr := jsStr paymentOption.payTo
            value := jsStr paymentOption.maxAmountRequired
            validAfter := toString ctx.now
            validBefore := toString (ctx.now + 900)
            nonce := nonceHex ctx.nonceBytes } } }

/-! ### Serialization: JSON rendering and base64

`signWithMetaMask` finishes with
`Buffer.from(JSON.stringify(paymentData)).toString('base64')` and
`createX402Payment` inverts it with
`JSON.parse(Buffer.from(paymentHeader, 'base64').toString())`.
Both library calls are modelled executably: `JSON.stringify` as a
renderer of the one fixed object shape the source ever serializes
(assuming field strings need no JSON escaping — theorems hypothesize
this), `JSON.parse` as a parser of that same document shape, and the
Node base64 codec as `base64EncodeBytes`/`base64DecodeBytes` over byte
lists (UTF-8 degenerates to the identity on the ASCII strings
involved). -/

/-- The standard base64 alphabet used by `Buffer.toString('base64')`. -/
def b64Alphabet : List Char :=
  "ABCDEFGHIJKLMNOPQRSTUVWXYZabcdefghijklmnopqrstuvwxyz0123456789+/".data

/-- Sextet value to base64 character. -/
def b64Char (n : Nat) : Char := b64Alphabet.getD n 'A'

/-- Base64 character back to its sextet value. -/
def b64Val (c : Char) : Option Nat :=
  let i := b64Alphabet.indexOf c
  if i < 64 then some i else none

/-- Base64 encoding of a byte list, with `'='` padding, as produced by
`Buffer.toString('base64')`. -/
def base64EncodeBytes : List Nat → List Char
  | [] => []
  | [a] => [b64Char (a / 4), b64Char (a % 4 * 16), '=', '=']
  | [a, b] => [b64Char (a / 4), b64Char (a % 4 * 16 + b / 16), b64Char (b % 16 * 4), '=']
  | a :: b :: c :: rest =>
    b64Char (a / 4) :: b64Char (a % 4 * 16 + b / 16) ::
      b64Char (b % 16 * 4 + c / 64) :: b64Char (c % 64) :: base64EncodeBytes rest

/-- Base64 decoding back to bytes (`Buffer.from(s, 'base64')`),
restricted to well-padded input. -/
def base64DecodeBytes : List Char → Option (List Nat)
  | [] => some []
  | c0 :: c1 :: c2 :: c3 :: rest =>
    match b64Val c0, b64Val c1 with
    | some s0, some s1 =>
      if c2 = '=' then
        if c3 = '=' then
          if rest = [] then some [s0 * 4 + s1 / 16] else none
        else none
      else
        match b64Val c2 with
        | some s2 =>
          if c3 = '=' then
            if rest = [] then some [s0 * 4 + s1 / 16, s1 % 16 * 16 + s2 / 4] else none
          else
            match b64Val c3, base64DecodeBytes rest with
            | some s3, some tail =>
              some ((s0 * 4 + s1 / 16) :: (s1 % 16 * 16 + s2 / 4) ::
                (s2 % 4 * 64 + s3) :: tail)
            | _, _ => none
        | none => none
    | _, _ => none
  | _ => none

/-- A JSON string literal (for strings that need no escaping). -/
def qs (v : List Char) : List Char := '"' :: v ++ ['"']

/-- Literal pieces of `JSON.stringify(paymentData)`; the key order is
the object-literal insertion order of the source, and `x402Version` is
the constant `1` there. -/
def jlit1 : List Char := "\x7b\"x402Version\":1,\"scheme\":".data

def jlit2 : List Char := ",\"network\":".data

def jlit3 : List Char := ",\"payload\":\x7b\"signature\":".data

def jlit4 : List Char := ",\"authorization\":\x7b\"from\":".data

def jlit5 : List Char := ",\"to\":".data

def jlit6 : List Char := ",\"value\":".data

def jlit7 : List Char := ",\"validAfter\":".data

def jlit8 : List Char := ",\"validBefore\":".data

def jlit9 : List Char := ",\"nonce\":".data

def jlit10 : List Char := "\x7d\x7d\x7d".data

/-- The literal keys of the payment-header document, in emission
order. -/
def jlits : List (List Char) :=
  [jlit1, jlit2, jlit3, jlit4, jlit5, jlit6, jlit7, jlit8, jlit9]

/-- Interleave literal pieces with quoted string values. -/
def renderFields : List (List Char) → List (List Char) → List Char
  | lit :: lits, v :: vs => lit ++ qs v ++ renderFields lits vs
  | _, _ => []

/-- The nine string-valued fields of `paymentData`, in emission
order. -/
def paymentFields (d : PaymentData) : List (List Char) :=
  [d.scheme.data, d.network.data, d.payload.signature.data,
   d.payload.authorization.fromAddr.data,
   d.payload.authorization.toAddr.data,
   d.payload.authorization.value.data,
   d.payload.authorization.validAfter.data,
   d.payload.authorization.validBefore.data,
   d.payload.authorization.nonce.data]

/-- `JSON.stringify(paymentData)` (x402-client.ts, line building
`paymentHeader`). -/
def renderPaymentData (d : PaymentData) : List Char :=
  renderFields jlits (paymentFields d) ++ jlit10

/-- Consume an expected literal prefix. -/
def dropLit : List Char → List Char → Option (List Char)
  | [], s => some s
  | _ :: _, [] => none
  | p :: ps, c :: cs => if p = c then dropLit ps cs else none

/-- Read characters up to (and consuming) the closing `'"'`. -/
def takeStr : List Char → Option (List Char × List Char)
  | [] => none
  | c :: cs =>
    if c = '"' then some ([], cs)
    else match takeStr cs with
      | some (v, rest) => some (c :: v, rest)
      | none => none

/-- Parse a JSON string literal. -/
def parseQ : List Char → Option (List Char × List Char)
  | c :: cs => if c = '"' then takeStr cs else none
  | [] => none

/-- Parse a sequence of literal-key / quoted-value pairs. -/
def parseFields : List (List Char) → List Char → Option (List (List Char) × List Char)
  | [], s => some ([], s)
  | lit :: lits, s =>
    match dropLit lit s with
    | none => none
    | some s1 =>
      match parseQ s1 with
      | none => none
      | some (v, s2) =>
        match parseFields lits s2 with
        | none => none
        | some (vs, rest) => some (v :: vs, rest)

/-- `JSON.parse` restricted to the payment-header document shape the
source emits (the only shape `createX402Payment` ever decodes). -/
def parsePaymentData (s : List Char) : Option PaymentData :=
  match parseFields jlits s with
  | some ([v1, v2, v3, v4, v5, v6, v7, v8, v9], rest) =>
    match dropLit jlit10 rest with
    | some [] =>
      some { scheme := ⟨v1⟩, network := ⟨v2⟩
             payload :=
               { signature := ⟨v3⟩
                 authorization :=
                   { fromAddr := ⟨v4⟩, toAddr := ⟨v5⟩, value := ⟨v6⟩
                     validAfter := ⟨v7⟩, validBefore := ⟨v8⟩
                     nonce := ⟨v9⟩ } } }
    | _ => none
  | _ => none

/-- `Buffer.from(JSON.stringify(paymentData)).toString('base64')`:
the payment header string returned by `signWithMetaMask`. -/
def encodePaymentHeader (d : PaymentData) : String :=
  ⟨base64EncodeBytes ((renderPaymentData d).map Char.toNat)⟩

/-- `JSON.parse(Buffer.from(paymentHeader, 'base64').toString())`:
the decoding performed by `createX402Payment` before extracting
`PaymentInfo`. -/
def decodePaymentHeader (h : String) : Option PaymentData :=
  (base64DecodeBytes h.data).bind fun bytes =>
    parsePaymentData (bytes.map Char.ofNat)

/-- The pure data flow of `signWithMetaMask` (x402-client.ts): build the
`paymentData` object for the given option, user address and environment
(time, randomness, wallet signature) and return its encoded header.
The wallet-interactive steps (chain check/switch, the signature prompt)
are part of the environment; the EIP-712 `domain`/`message` values they
operate on are `buildDomain`/`buildMessage`. -/
def signWithMetaMask (paymentOption : PaymentOption) (userAddress : String)
    (ctx : SignContext) : String :=
  encodePaymentHeader (buildPaymentData paymentOption userAddress ctx)

/-- `createX402Payment` (x402-client.ts): rejects a challenge with a
missing/empty `accepts` array, signs the first option, then decodes the
header it just built to extract `PaymentInfo`.  The error strings are
the `Error` messages of the source; a failure of `JSON.parse` on the
decoded header (impossible for headers the source itself builds, but
the call is fallible) is modelled as the distinct message
`"Failed to parse payment header"`. -/
def createX402Payment (requirements : X402PaymentRequirements)
    (walletAddress : String) (ctx : SignContext) :
    Except String (String × PaymentInfo) :=
  match requirements.accepts with
  | [] => .error "Invalid x402 payment requirements: missing 'accepts' array"
  | paymentOption :: _ =>
    let paymentHeader := signWithMetaMask paymentOption walletAddress ctx
    match decodePaymentHeader paymentHeader with
    | none => .error "Failed to parse payment header"
    | some decodedHeader =>
      .ok (paymentHeader,
        { network := decodedHeader.network
          spender := decodedHeader.payload.authorization.toAddr
          asset := jsStr paymentOption.asset
          userAddress := decodedHeader.payload.authorization.fromAddr })

/-- `calculateRelayFee` (x402-client.ts): `max(3% × amount, $0.002)`,
with JS numbers modelled as exact rationals. -/
def calculateRelayFee (targetAmountUSD : ℚ) : ℚ :=
  let threePercent := targetAmountUSD * (3 / 100)
  let minFee : ℚ := 2 / 1000
  max threePercent minFee

/-- `calculateTotalAmount` (x402-client.ts): target plus relay fee. -/
def calculateTotalAmount (targetAmountUSD : ℚ) : ℚ :=
  targetAmountUSD + calculateRelayFee targetAmountUSD

/-! ### The payment-gated request executor (`brokerRequestWithPayment`) -/

/-- An HTTP response as the client observes it: status plus body text
(`response.json()` of a returned body is modelled as the body text). -/
structure HttpResponse where
  status : Nat
  body : String
  deriving DecidableEq

/-- `Response.ok`: status in the 2xx range. -/
def HttpResponse.ok (r : HttpResponse) : Bool :=
  200 ≤ r.status && r.status ≤ 299

/-- The caller-supplied `RequestInit`-style options (method, body,
headers). -/
structure RequestOptions where
  method : Option String
  body : Option String
  headers : List (String × String)
  deriving DecidableEq

/-- One outgoing broker request as issued by the executor. -/
structure BrokerRequest where
  url : String
  method : Option String
  body : Option String
  headers : List (String × String)
  deriving DecidableEq

/-- The default `BROKER_API_BASE` of broker-api.ts. -/
def brokerApiBase : String :=
  "https://multidimensional-reviewless-freda.ngrok-free.dev"

/-- What the outside world returns during one run of
`brokerRequestWithPayment`: the first fetch's response, the result of
`JSON.parse` on its body when it is a 402 (`none` models a parse
throw), wallet availability (`window.ethereum`), the `eth_accounts`
result, the signing environment, and the retry fetch's response. -/
structure ExecEnv where
  response1 : HttpResponse
  challenge : Option X402PaymentRequirements
  walletAvailable : Bool
  accounts : List String
  sign : SignContext
  response2 : HttpResponse
  deriving DecidableEq

/-- Outcome of the executor: the resolved body or a thrown `Error`
message. -/
inductive ExecResult
  | ok (body : String)
  | error (msg : String)
  deriving DecidableEq

/-- Observable trace of one executor run: outcome, the broker requests
issued in order, whether any `ethereum.request` call was made, and how
many `eth_signTypedData_v4` signatures were requested. -/
structure ExecTrace where
  result : ExecResult
  requests : List BrokerRequest
  walletUsed : Bool
  signings : Nat
  deriving DecidableEq

/-- The executor's final
`if (!response.ok) throw ...; return response.json()`. -/
def finishResponse (r : HttpResponse) : ExecResult :=
  if r.ok then .ok r.body
  else .error ("Broker request failed (" ++ toString r.status ++ "): " ++ r.body)

/-- Literal pieces of `JSON.stringify(paymentResult)` where
`paymentResult = { paymentHeader, paymentInfo }` is the value returned
by `createX402Payment` (broker-api.ts, `const paymentHeader =
JSON.stringify(paymentResult)`). -/
def prlit1 : List Char := "\x7b\"paymentHeader\":".data

def prlit2 : List Char := ",\"paymentInfo\":\x7b\"network\":".data

def prlit3 : List Char := ",\"spender\":".data

def prlit4 : List Char := ",\"asset\":".data

def prlit5 : List Char := ",\"userAddress\":".data

def prlit6 : List Char := "\x7d\x7d".data

/-- `JSON.stringify({ paymentHeader, paymentInfo })` — the string
broker-api.ts actually attaches under `X-Payment` on the retry. -/
def renderPaymentResult (paymentHeader : String) (info : PaymentInfo) : String :=
  ⟨prlit1 ++ qs paymentHeader.data ++ prlit2 ++ qs info.network.data ++
    prlit3 ++ qs info.spender.data ++ prlit4 ++ qs info.asset.data ++
    prlit5 ++ qs info.userAddress.data ++ prlit6⟩

/-- `brokerRequestWithPayment` (broker-api.ts): issue the request; on a
402, parse the challenge, require a wallet and a connected account,
create the payment, and retry once with the `X-Payment` header added;
finally propagate a non-ok response as an error and return the body
otherwise.  `signings` counts runs of `signWithMetaMask`, which happen
exactly when the challenge's `accepts` list is non-empty. -/
def brokerRequestWithPayment (endpoint : String) (options : RequestOptions)
    (env : ExecEnv) : ExecTrace :=
  let req1 : BrokerRequest :=
    { url := brokerApiBase ++ endpoint
      method := options.method
      body := options.body
      headers := ("Content-Type", "application/json") :: options.headers }
  if env.response1.status = 402 then
    match env.challenge with
    | none =>
      { result := .error "Invalid payment requirements from broker"
        requests := [req1], walletUsed := false, signings := 0 }
    | some paymentRequirements =>
      if env.walletAvailable then
        match env.accounts with
        | [] =>
          { result := .error "Wallet not connected. Please connect your wallet first."
            requests := [req1], walletUsed := true, signings := 0 }
        | userAddress :: _ =>
          let signings := if paymentRequirements.accepts = [] then 0 else 1
          match createX402Payment paymentRequirements userAddress env.sign with
          | .error e =>
            { result := .error e
              requests := [req1], walletUsed := true, signings := signings }
          | .ok (paymentHeader, paymentInfo) =>
            let req2 : BrokerRequest :=
              { req1 with
                headers := req1.headers ++
                  [("X-Payment", renderPaymentResult paymentHeader paymentInfo)] }
            { result := finishResponse env.response2
              requests := [req1, req2], walletUsed := true, signings := signings }
      else
        { result := .error "Payment required but wallet not connected. Please connect your wallet."
          requests := [req1], walletUsed := false, signings := 0 }
  else
    { result := finishResponse env.response1
      requests := [req1], walletUsed := false, signings := 0 }

/-! ### The alternative helper `fetchWith402` (utils/httpayer.ts) -/

/-- The projections of `res.clone().json()` that `fetchWith402` reads:
the optional `payUrl` field, the serialized `invoice` field when
present, and the serialization of the whole body. -/
structure InvoiceBody where
  payUrl : Option String
  invoice : Option String
  whole : String
  deriving DecidableEq

/-- Outside world for one `fetchWith402` run: the initial response, the
parsed body (`none` models `.catch(() => null)`), the pay-POST
response, and the replayed request's response. -/
structure FetchEnv where
  initial : HttpResponse
  parsed : Option InvoiceBody
  payResponse : HttpResponse
  replay : HttpResponse
  deriving DecidableEq

/-- One `fetch` invocation recorded in the trace. -/
structure FetchCall where
  url : String
  method : Option String
  body : Option String
  headers : List (String × String)
  deriving DecidableEq

/-- `fetchWith402`'s outcome: a returned response or a thrown error. -/
inductive FetchOutcome
  | ok (r : HttpResponse)
  | thrown (msg : String)
  deriving DecidableEq

/-- `body?.payUrl || relay + "/pay"` (`||` also rejects an empty
string). -/
def x402PayUrl (relay : String) (parsed : Option InvoiceBody) : String :=
  match parsed with
  | some b =>
    match b.payUrl with
    | some u => if u = "" then relay ++ "/pay" else u
    | none => relay ++ "/pay"
  | none => relay ++ "/pay"

/-- `JSON.stringify(body?.invoice || body)`; when the body failed to
parse (`body = null`) this is `JSON.stringify(null) = "null"`. -/
def x402PayBody (parsed : Option InvoiceBody) : String :=
  match parsed with
  | some b =>
    match b.invoice with
    | some inv => inv
    | none => b.whole
  | none => "null"

/-- `fetchWith402` (utils/httpayer.ts): pass through non-402 responses;
on a 402, POST the invoice to the pay URL, throw `"Payment failed"` if
that POST is not ok, and otherwise replay the original request with its
original arguments (no payment header) and return whatever it yields. -/
def fetchWith402 (input : String) (init : RequestOptions) (relay : String)
    (env : FetchEnv) : FetchOutcome × List FetchCall :=
  let call0 : FetchCall :=
    { url := input, method := init.method, body := init.body
      headers := init.headers }
  if env.initial.status ≠ 402 then (.ok env.initial, [call0])
  else
    let payCall : FetchCall :=
      { url := x402PayUrl relay env.parsed
        method := some "POST"
        body := some (x402PayBody env.parsed)
        headers := [("Content-Type", "application/json")] }
    if env.payResponse.ok = false then (.thrown "Payment failed", [call0, payCall])
    else (.ok env.replay, [call0, payCall, call0])

/-! ### The revocation helper (`revokeApproval`) -/

/-- A transaction receipt as read by the polling loop (only its
`status` field is consulted). -/
structure TxReceipt where
  status : Option String
  deriving DecidableEq

/-- Outside world for one `revokeApproval` run: wallet availability,
the `eth_requestAccounts` result (used only as the transaction's
`from`, which the claims do not examine), and the receipt returned by
the i-th `eth_getTransactionReceipt` poll (`none` models both a null
receipt and a throwing call, which the source treats alike). -/
structure RevokeEnv where
  walletAvailable : Bool
  accounts : List String
  receipts : Nat → Option TxReceipt

/-- The ERC-20 `approve(address,uint256)` selector (x402-client.ts,
`const approveSignature = '0x095ea7b3'`). -/
def approveSelector : String := "0x095ea7b3"

/-- `s.padStart(64, '0')`. -/
def padStart64 (s : List Char) : List Char :=
  List.replicate (64 - s.length) '0' ++ s

/-- `s.replace('0x', '')`: drop the first occurrence of `"0x"`. -/
def removeOx : List Char → List Char
  | '0' :: 'x' :: rest => rest
  | c :: rest => c :: removeOx rest
  | [] => []

/-- The zero-value approval calldata built by `revokeApproval`:
selector ++ spender (sans `0x`, zero-padded to 64 hex chars) ++ a
zero amount padded to 64 hex chars. -/
def revokeCalldata (info : PaymentInfo) : String :=
  ⟨approveSelector.data ++ padStart64 (removeOx info.spender.data) ++
    padStart64 ['0']⟩

/-- `const maxAttempts = 30` of the polling loop. -/
def maxAttempts : Nat := 30

/-- The receipt-polling loop of `revokeApproval`, with the remaining
attempt budget (`maxAttempts - attempts`) as structural fuel.  Returns
the receipt found (if any), the number of `eth_getTransactionReceipt`
calls made, and the total `setTimeout` delay in milliseconds (one
2000 ms sleep after every null receipt). -/
def pollLoop (receipts : Nat → Option TxReceipt) :
    Nat → Nat → Nat → Option TxReceipt × Nat × Nat
  | 0, polls, sleepMs => (none, polls, sleepMs)
  | fuel + 1, polls, sleepMs =>
    match receipts polls with
    | some r => (some r, polls + 1, sleepMs)
    | none => pollLoop receipts fuel (polls + 1) (sleepMs + 2000)

/-- Outcome of `revokeApproval`: normal return or a thrown `Error`
message. -/
inductive RevokeResult
  | ok
  | error (msg : String)
  deriving DecidableEq

/-- Observable trace of one `revokeApproval` run. -/
structure RevokeTrace where
  result : RevokeResult
  calldata : Option String
  polls : Nat
  sleepMs : Nat
  deriving DecidableEq

/-- `revokeApproval` (x402-client.ts): build the zero-value approval
calldata, submit it, poll for a receipt up to 30 times with 2-second
spacing, and throw `'Revocation transaction failed'` (wrapped by the
outer catch into `'Failed to revoke approval: ...'`) both when the
budget is exhausted with no receipt and when the receipt's status is
`'0x0'`. -/
def revokeApproval (info : PaymentInfo) (env : RevokeEnv) : RevokeTrace :=
  if env.walletAvailable then
    let data := revokeCalldata info
    match pollLoop env.receipts maxAttempts 0 0 with
    | (receipt, polls, sleepMs) =>
      match receipt with
      | none =>
        { result := .error "Failed to revoke approval: Revocation transaction failed"
          calldata := some data, polls := polls, sleepMs := sleepMs }
      | some r =>
        if r.status = some "0x0" then
          { result := .error "Failed to revoke approval: Revocation transaction failed"
            calldata := some data, polls := polls, sleepMs := sleepMs }
        else
          { result := .ok, calldata := some data, polls := polls, sleepMs := sleepMs }
  else
    { result := .error "MetaMask not found"
      calldata := none, polls := 0, sleepMs := 0 }

/-! ### Serialization lemmas -/

/-- Table lookup inverts the base64 alphabet (all 64 entries). -/
theorem b64Val_b64Char_fin : ∀ m : Fin 64, b64Val (b64Char m.val) = some m.val := by
  decide

/-- No alphabet character is the padding character. -/
theorem b64Char_ne_pad_fin : ∀ m : Fin 64, b64Char m.val ≠ '=' := by
  decide

theorem b64Val_b64Char {n : Nat} (h : n < 64) : b64Val (b64Char n) = some n :=
  b64Val_b64Char_fin ⟨n, h⟩

theorem b64Char_ne_pad {n : Nat} (h : n < 64) : b64Char n ≠ '=' :=
  b64Char_ne_pad_fin ⟨n, h⟩

/-- Base64 decoding inverts base64 encoding on byte lists. -/
theorem base64_roundtrip : ∀ bs : List Nat, (∀ b ∈ bs, b < 256) →
    base64DecodeBytes (base64EncodeBytes bs) = some bs
  | [], _ => rfl
  | [a], h => by
    have ha : a < 256 := h a (by simp)
    have h0 : a / 4 < 64 := by omega
    have h1 : a % 4 * 16 < 64 := by omega
    simp only [base64EncodeBytes, base64DecodeBytes, b64Val_b64Char h0, b64Val_b64Char h1]
    simp
    omega
  | [a, b], h => by
    have ha : a < 256 := h a (by simp)
    have hb : b < 256 := h b (by simp)
    have h0 : a / 4 < 64 := by omega
    have h1 : a % 4 * 16 + b / 16 < 64 := by omega
    have h2 : b % 16 * 4 < 64 := by omega
    simp only [base64EncodeBytes, base64DecodeBytes, b64Val_b64Char h0, b64Val_b64Char h1,
      b64Val_b64Char h2, if_neg (b64Char_ne_pad h2)]
    simp
    omega
  | a :: b :: c :: bs, h => by
    have ha : a < 256 := h a (by simp)
    have hb : b < 256 := h b (by simp)
    have hc : c < 256 := h c (by simp)
    have h0 : a / 4 < 64 := by omega
    have h1 : a % 4 * 16 + b / 16 < 64 := by omega
    have h2 : b % 16 * 4 + c / 64 < 64 := by omega
    have h3 : c % 64 < 64 := by omega
    have ih : base64DecodeBytes (base64EncodeBytes bs) = some bs :=
      base64_roundtrip bs (fun x hx => h x (by simp [hx]))
    simp only [base64EncodeBytes, base64DecodeBytes, b64Val_b64Char h0, b64Val_b64Char h1,
      b64Val_b64Char h2, b64Val_b64Char h3,
      if_neg (b64Char_ne_pad h2), if_neg (b64Char_ne_pad h3), ih]
    simp
    omega

theorem dropLit_append (p rest : List Char) : dropLit p (p ++ rest) = some rest := by
  induction p with
  | nil => rfl
  | cons c cs ih => simp [dropLit, ih]

theorem takeStr_append (v rest : List Char) (h : '"' ∉ v) :
    takeStr (v ++ '"' :: rest) = some (v, rest) := by
  induction v with
  | nil => simp [takeStr]
  | cons c cs ih =>
    have hc : c ≠ '"' := by intro e; exact h (by simp [e])
    have hcs : '"' ∉ cs := fun e => h (by simp [e])
    simp [takeStr, hc, ih hcs]

theorem parseQ_qs (v rest : List Char) (h : '"' ∉ v) :
    parseQ (qs v ++ rest) = some (v, rest) := by
  simp [qs, parseQ, takeStr_append v rest h]

/-- Parsing inverts rendering for any key/value interleaving. -/
theorem parseFields_render (lits : List (List Char)) :
    ∀ (vs : List (List Char)) (rest : List Char),
      lits.length = vs.length → (∀ v ∈ vs, '"' ∉ v) →
      parseFields lits (renderFields lits vs ++ rest) = some (vs, rest) := by
  induction lits with
  | nil =>
    intro vs rest hlen _
    cases vs with
    | nil => simp [renderFields, parseFields]
    | cons v vs => simp at hlen
  | cons lit lits ih =>
    intro vs rest hlen hq
    cases vs with
    | nil => simp at hlen
    | cons v vs =>
      have hv : '"' ∉ v := hq v (by simp)
      have hvs : ∀ w ∈ vs, '"' ∉ w := fun w hw => hq w (by simp [hw])
      have hlen' : lits.length = vs.length := by simpa using hlen
      simp only [renderFields, List.append_assoc, parseFields, dropLit_append]
      rw [parseQ_qs v _ hv]
      simp [ih vs rest hlen' hvs]

/-- Strings that serialize without escaping and fit in single ASCII
bytes: the hypothesis under which the embedded `JSON.stringify` /
`Buffer` pipeline agrees with the JS one.  Hex-string signatures,
addresses, decimal amounts and network labels all satisfy it. -/
def cleanData (d : PaymentData) : Prop :=
  ∀ v ∈ paymentFields d, ∀ c ∈ v,
    32 ≤ c.toNat ∧ c.toNat < 128 ∧ c ≠ '"' ∧ c ≠ '\\'

instance cleanDataDecidable (d : PaymentData) : Decidable (cleanData d) :=
  inferInstanceAs (Decidable (∀ v ∈ paymentFields d, ∀ c ∈ v,
    32 ≤ c.toNat ∧ c.toNat < 128 ∧ c ≠ '"' ∧ c ≠ '\\'))

/-- The literal pieces of the document are ASCII. -/
theorem ascii_jlits : ∀ l ∈ jlits, ∀ c ∈ l, c.toNat < 128 := by
  decide

theorem ascii_jlit10 : ∀ c ∈ jlit10, c.toNat < 128 := by
  decide

theorem renderFields_nil_left (vs : List (List Char)) : renderFields [] vs = [] := by
  cases vs <;> rfl

theorem renderFields_nil_right (lits : List (List Char)) :
    renderFields lits [] = [] := by
  cases lits <;> rfl

theorem renderFields_cons (lit v : List Char) (lits vs : List (List Char)) :
    renderFields (lit :: lits) (v :: vs) = lit ++ qs v ++ renderFields lits vs := rfl

/-- Every character of the rendered interleaving is ASCII when the keys
and values are. -/
theorem ascii_renderFields (lits : List (List Char)) :
    ∀ (vs : List (List Char)),
      (∀ l ∈ lits, ∀ c ∈ l, c.toNat < 128) →
      (∀ v ∈ vs, ∀ c ∈ v, c.toNat < 128) →
      ∀ c ∈ renderFields lits vs, c.toNat < 128 := by
  induction lits with
  | nil =>
    intro vs _ _ c hc
    rw [renderFields_nil_left] at hc
    simp at hc
  | cons lit lits ih =>
    intro vs hlits hvs c hc
    cases vs with
    | nil =>
      rw [renderFields_nil_right] at hc
      simp at hc
    | cons v vs =>
      rw [renderFields_cons] at hc
      simp only [qs, List.append_assoc, List.cons_append, List.nil_append,
        List.mem_append, List.mem_cons, List.mem_singleton] at hc
      rcases hc with h | h | h | h | h
      · exact hlits lit (by simp) c h
      · subst h; decide
      · exact hvs v (by simp) c h
      · subst h; decide
      · exact ih vs (fun l hl => hlits l (by simp [hl]))
          (fun w hw => hvs w (by simp [hw])) c h

/-- Every character of the rendered payment document is ASCII for clean
data. -/
theorem ascii_renderPaymentData (d : PaymentData) (h : cleanData d) :
    ∀ c ∈ renderPaymentData d, c.toNat < 128 := by
  intro c hc
  simp only [renderPaymentData, List.mem_append] at hc
  rcases hc with h1 | h1
  · exact ascii_renderFields jlits (paymentFields d) ascii_jlits
      (fun v hv c hc => ((h v hv c hc).2.1)) c h1
  · exact ascii_jlit10 c h1

/-- Parsing inverts rendering of the payment document. -/
theorem parse_renderPaymentData (d : PaymentData)
    (h : ∀ v ∈ paymentFields d, '"' ∉ v) :
    parsePaymentData (renderPaymentData d) = some d := by
  have hfields : parseFields jlits (renderFields jlits (paymentFields d) ++ jlit10) =
      some (paymentFields d, jlit10) :=
    parseFields_render jlits (paymentFields d) jlit10 rfl h
  have hlast : dropLit jlit10 jlit10 = some [] := by
    have := dropLit_append jlit10 []
    simpa using this
  simp only [paymentFields] at hfields
  simp only [parsePaymentData, renderPaymentData, paymentFields, hfields, hlast]

/-- Full round trip: decoding the base64 payment header reproduces the
`paymentData` object exactly (clean field strings). -/
theorem decode_encodePaymentHeader (d : PaymentData) (h : cleanData d) :
    decodePaymentHeader (encodePaymentHeader d) = some d := by
  have hascii := ascii_renderPaymentData d h
  have hbytes : ∀ b ∈ (renderPaymentData d).map Char.toNat, b < 256 := by
    intro b hb
    rcases List.mem_map.mp hb with ⟨c, hc, rfl⟩
    exact lt_trans (hascii c hc) (by norm_num)
  have hb64 := base64_roundtrip ((renderPaymentData d).map Char.toNat) hbytes
  have hq : ∀ v ∈ paymentFields d, '"' ∉ v := by
    intro v hv hcq
    exact ((h v hv '"' hcq).2.2.1) rfl
  have hmap : ((renderPaymentData d).map Char.toNat).map Char.ofNat =
      renderPaymentData d := by
    rw [List.map_map]
    exact (List.map_congr_left (fun c _ => Char.ofNat_toNat c)).trans
      (List.map_id _)
  simp only [decodePaymentHeader, encodePaymentHeader, hb64, Option.some_bind, hmap]
  exact parse_renderPaymentData d hq

/-! ### Auxiliary lemmas for the claims -/

/-- `Except` observer used to state that a call succeeded. -/
def exOk {e a : Type} : Except e a → Bool
  | .ok _ => true
  | .error _ => false

theorem flatten_byteHex_length (bytes : List Nat) :
    ((bytes.map byteHex).flatten).length = 2 * bytes.length := by
  induction bytes with
  | nil => rfl
  | cons b bs ih =>
    simp only [List.map_cons, List.flatten_cons, List.length_append, ih,
      byteHex, List.length_cons, List.length_nil]
    omega

theorem nonceHex_length (bytes : List Nat) :
    (nonceHex bytes).length = 2 + 2 * bytes.length := by
  simp only [nonceHex, String.length, List.length_cons, flatten_byteHex_length]
  omega

/-! ### Claim C1: chain-id selection for the signing domain -/

/-- A well-formed payment option on the recognized network label
`'base'`. -/
def c1Option : PaymentOption :=
  { scheme := "exact", network := "base", payTo := some "0xB"
    asset := some "0xA", maxAmountRequired := some "5" }

/-- C1, counterexample: for the recognized network label `'base'` the
EIP-712 signing domain built by `signWithMetaMask` still carries chain
id 43114, not the lookup table's 8453, so
`domain.chainId = getChainIdFromNetwork(option.network)` fails on a
recognized label. -/
theorem c1_counterexample :
    (buildDomain c1Option).chainId ≠ getChainIdFromNetwork c1Option.network := by
  decide

/-- C1, amended: `getChainIdFromNetwork` does implement the fixed
lookup table with default 43114 ('base' is 8453, 'ethereum' is 1,
'polygon' is 137, lookup is case-insensitive, unrecognized labels fall
back to 43114), but `signWithMetaMask` never consults it: the signing
domain's chain id is hard-coded to 43114 for every payment option. -/
theorem c1_amended :
    (∀ paymentOption : PaymentOption,
      (buildDomain paymentOption).chainId = 43114) ∧
    getChainIdFromNetwork "base" = 8453 ∧
    getChainIdFromNetwork "ethereum" = 1 ∧
    getChainIdFromNetwork "polygon" = 137 ∧
    getChainIdFromNetwork "BASE" = 8453 ∧
    getChainIdFromNetwork "no-such-network" = 43114 := by
  refine ⟨fun _ => rfl, ?_, ?_, ?_, ?_, ?_⟩ <;> decide

/-! ### Claim C4: challenge validation in `createX402Payment` -/

/-- A challenge whose single option is missing all three fields the
spec calls required. -/
def c4Option : PaymentOption :=
  { scheme := "exact", network := "base", payTo := none, asset := none,
    maxAmountRequired := none }

def c4Challenge : X402PaymentRequirements :=
  { x402Version := 1, accepts := [c4Option] }

def c4Ctx : SignContext :=
  { now := 1700000000, nonceBytes := List.replicate 32 171, signature := "0xS" }

/-- C4, counterexample: a challenge whose first option is missing
`asset`, `payTo` and `maxAmountRequired` is *not* rejected: the builder
proceeds to sign and returns successfully instead of failing with the
invalid-challenge error. -/
theorem c4_counterexample :
    exOk (createX402Payment c4Challenge "0xU" c4Ctx) = true ∧
    createX402Payment c4Challenge "0xU" c4Ctx ≠
      Except.error "Invalid x402 payment requirements: missing 'accepts' array" := by
  have h : exOk (createX402Payment c4Challenge "0xU" c4Ctx) = true := by decide
  refine ⟨h, fun he => ?_⟩
  rw [he] at h
  simp [exOk] at h

/-- C4, amended: `createX402Payment` fails with the invalid-challenge
error exactly when the `accepts` list is empty; missing fields of the
first option are not validated and the builder proceeds to sign. -/
theorem c4_amended (requirements : X402PaymentRequirements)
    (walletAddress : String) (ctx : SignContext) :
    createX402Payment requirements walletAddress ctx =
        Except.error "Invalid x402 payment requirements: missing 'accepts' array" ↔
      requirements.accepts = [] := by
  constructor
  · intro h
    cases hacc : requirements.accepts with
    | nil => rfl
    | cons opt rest =>
      simp only [createX402Payment, hacc] at h
      cases hdec : decodePaymentHeader (signWithMetaMask opt walletAddress ctx) with
      | none =>
        rw [hdec] at h
        simp only [Except.error.injEq] at h
        exact absurd h (by decide)
      | some d =>
        rw [hdec] at h
        exact Except.noConfusion h
  · intro h
    simp [createX402Payment, h]

/-! ### Claim C5: the transfer-authorization message -/

/-- C5: the `TransferWithAuthorization` message built for signing has
`validAfter = now`, `validBefore = now + 900`, `value` and `to` copied
verbatim from the option, `from` the payer address, and a nonce that is
exactly the hex image of the 32 environment-supplied random bytes
(66 characters, and independent of the clock). -/
theorem c5_authorization_fields (paymentOption : PaymentOption)
    (userAddress : String) (ctx : SignContext)
    (h32 : ctx.nonceBytes.length = 32) :
    (buildMessage paymentOption userAddress ctx).validAfter = ctx.now ∧
    (buildMessage paymentOption userAddress ctx).validBefore = ctx.now + 900 ∧
    (buildMessage paymentOption userAddress ctx).value =
      paymentOption.maxAmountRequired ∧
    (buildMessage paymentOption userAddress ctx).toAddr = paymentOption.payTo ∧
    (buildMessage paymentOption userAddress ctx).fromAddr = userAddress ∧
    (buildMessage paymentOption userAddress ctx).nonce = nonceHex ctx.nonceBytes ∧
    ((buildMessage paymentOption userAddress ctx).nonce).length = 66 ∧
    (∀ now2 : Nat,
      (buildMessage paymentOption userAddress
          { now := now2, nonceBytes := ctx.nonceBytes,
            signature := ctx.signature }).nonce = nonceHex ctx.nonceBytes) := by
  refine ⟨rfl, rfl, rfl, rfl, rfl, rfl, ?_, fun _ => rfl⟩
  show (nonceHex ctx.nonceBytes).length = 66
  rw [nonceHex_length, h32]

/-- Concrete option and signing environment for the C5 witness. -/
def c5Option : PaymentOption :=
  { scheme := "exact", network := "avalanche", payTo := some "0xB"
    asset := some "0xA", maxAmountRequired := some "5" }

def c5Ctx : SignContext :=
  { now := 100, nonceBytes := List.replicate 32 7, signature := "0xS" }

/-- C5, witness at a concrete option/time/randomness. -/
theorem c5_witness :
    c5Ctx.nonceBytes.length = 32 ∧
    ((buildMessage c5Option "0xU" c5Ctx).validAfter = c5Ctx.now ∧
      (buildMessage c5Option "0xU" c5Ctx).validBefore = c5Ctx.now + 900 ∧
      (buildMessage c5Option "0xU" c5Ctx).value = c5Option.maxAmountRequired ∧
      (buildMessage c5Option "0xU" c5Ctx).toAddr = c5Option.payTo ∧
      (buildMessage c5Option "0xU" c5Ctx).fromAddr = "0xU" ∧
      (buildMessage c5Option "0xU" c5Ctx).nonce = nonceHex c5Ctx.nonceBytes ∧
      ((buildMessage c5Option "0xU" c5Ctx).nonce).length = 66 ∧
      (∀ now2 : Nat,
        (buildMessage c5Option "0xU"
            { now := now2, nonceBytes := c5Ctx.nonceBytes,
              signature := c5Ctx.signature }).nonce =
          nonceHex c5Ctx.nonceBytes)) :=
  ⟨by decide, c5_authorization_fields c5Option "0xU" c5Ctx (by decide)⟩

/-! ### Claim C8: the fee calculator -/

/-- C8: `relayFee` is exactly `max(0.03 x, 0.002)` and `totalAmount`
adds it to the target, with the documented floor/percentage
instances. -/
theorem c8_relay_fee (x : ℚ) (_hx : 0 ≤ x) :
    calculateRelayFee x = max (3 / 100 * x) (1 / 500) ∧
    calculateTotalAmount x = x + calculateRelayFee x ∧
    calculateRelayFee (1 / 100) = 1 / 500 ∧
    calculateRelayFee 1 = 3 / 100 := by
  refine ⟨?_, rfl, ?_, ?_⟩
  · show max (x * (3 / 100)) (2 / 1000) = max (3 / 100 * x) (1 / 500)
    rw [mul_comm]
    norm_num
  · show max ((1 / 100 : ℚ) * (3 / 100)) (2 / 1000) = 1 / 500
    rw [max_eq_right (by norm_num)]
    norm_num
  · show max ((1 : ℚ) * (3 / 100)) (2 / 1000) = 3 / 100
    rw [max_eq_left (by norm_num)]
    norm_num

/-- C8, witness at `x = 2`. -/
theorem c8_witness :
    (0 : ℚ) ≤ 2 ∧
    (calculateRelayFee 2 = max (3 / 100 * 2) (1 / 500) ∧
      calculateTotalAmount 2 = 2 + calculateRelayFee 2 ∧
      calculateRelayFee (1 / 100) = 1 / 500 ∧
      calculateRelayFee 1 = 3 / 100) :=
  ⟨by norm_num, c8_relay_fee 2 (by norm_num)⟩

/-! ### Claim C3: at most one payment cycle per executor call -/

/-- C3: one executor call issues at most two broker requests and at
most one signing; and whenever a retry was issued (two requests) and
the retried response is again a 402, the call fails with the broker
error for status 402 — no second payment cycle, no third request. -/
theorem c3_single_payment_cycle (endpoint : String) (options : RequestOptions)
    (env : ExecEnv) :
    (brokerRequestWithPayment endpoint options env).requests.length ≤ 2 ∧
    (brokerRequestWithPayment endpoint options env).signings ≤ 1 ∧
    ((brokerRequestWithPayment endpoint options env).requests.length = 2 →
      env.response2.status = 402 →
      (brokerRequestWithPayment endpoint options env).result =
        .error ("Broker request failed (402): " ++ env.response2.body)) := by
  unfold brokerRequestWithPayment
  by_cases h1 : env.response1.status = 402
  · rw [if_pos h1]
    cases hch : env.challenge with
    | none => exact ⟨by simp, by simp, by simp⟩
    | some reqs =>
      dsimp only
      by_cases hw : env.walletAvailable
      · rw [if_pos hw]
        cases hacc : env.accounts with
        | nil => exact ⟨by simp, by simp, by simp⟩
        | cons u rest =>
          dsimp only
          cases hpay : createX402Payment reqs u env.sign with
          | error e =>
            dsimp only
            refine ⟨by simp, ?_, by simp⟩
            split <;> simp
          | ok pr =>
            obtain ⟨ph, info⟩ := pr
            dsimp only
            refine ⟨by simp, ?_, ?_⟩
            · split <;> simp
            · intro _ h2
              show finishResponse env.response2 = _
              have hok : env.response2.ok = false := by
                simp [HttpResponse.ok, h2]
              simp only [finishResponse, hok, Bool.false_eq_true, if_false, h2]
              congr 2
      · rw [if_neg hw]
        exact ⟨by simp, by simp, by simp⟩
  · rw [if_neg h1]
    exact ⟨by simp, by simp, by simp⟩

/-- The challenge, environment and options shared by the executor
witnesses: a 402 challenge with one fully-populated option, a connected
wallet, and a paid retry that is itself answered with a 402. -/
def wOption : PaymentOption :=
  { scheme := "exact", network := "base", payTo := some "0xB"
    asset := some "0xA", maxAmountRequired := some "5" }

def wChallenge : X402PaymentRequirements :=
  { x402Version := 1, accepts := [wOption] }

def wCtx : SignContext :=
  { now := 100, nonceBytes := List.replicate 32 0, signature := "0xS" }

def wOptions : RequestOptions :=
  { method := some "POST", body := some "payload"
    headers := [("Accept", "application/json")] }

def wEnvRetry402 : ExecEnv :=
  { response1 := { status := 402, body := "challenge" }
    challenge := some wChallenge
    walletAvailable := true
    accounts := ["0xU"]
    sign := wCtx
    response2 := { status := 402, body := "still unpaid" } }

/-- C3, witness: on a concrete run whose paid retry returns 402, the
executor performed exactly two requests, one signing, and failed. -/
theorem c3_witness :
    (brokerRequestWithPayment "/run" wOptions wEnvRetry402).requests.length = 2 ∧
    (brokerRequestWithPayment "/run" wOptions wEnvRetry402).signings = 1 ∧
    (brokerRequestWithPayment "/run" wOptions wEnvRetry402).result =
      .error ("Broker request failed (402): " ++ "still unpaid") :=
  ⟨by decide, by decide,
    (c3_single_payment_cycle "/run" wOptions wEnvRetry402).2.2 (by decide) rfl⟩

/-! ### Claim C7: non-402 responses pass through untouched -/

/-- C7: when the initial response is not a 402, the executor makes no
wallet call, requests nothing further, returns a 2xx body as-is and
propagates any other status as an error. -/
theorem c7_non402_passthrough (endpoint : String) (options : RequestOptions)
    (env : ExecEnv) (h : ¬ env.response1.status = 402) :
    (brokerRequestWithPayment endpoint options env).walletUsed = false ∧
    (brokerRequestWithPayment endpoint options env).signings = 0 ∧
    (brokerRequestWithPayment endpoint options env).requests.length = 1 ∧
    (env.response1.ok = true →
      (brokerRequestWithPayment endpoint options env).result =
        .ok env.response1.body) ∧
    (env.response1.ok = false →
      (brokerRequestWithPayment endpoint options env).result =
        .error ("Broker request failed (" ++ toString env.response1.status ++
          "): " ++ env.response1.body)) := by
  unfold brokerRequestWithPayment
  rw [if_neg h]
  refine ⟨rfl, rfl, rfl, ?_, ?_⟩
  · intro hok
    show finishResponse env.response1 = _
    simp [finishResponse, hok]
  · intro hok
    show finishResponse env.response1 = _
    simp [finishResponse, hok]

def wEnv200 : ExecEnv :=
  { response1 := { status := 200, body := "job done" }
    challenge := none
    walletAvailable := true
    accounts := ["0xU"]
    sign := wCtx
    response2 := { status := 200, body := "unused" } }

/-- C7, witness: a concrete 200 response is returned as-is with no
wallet interaction and a single request. -/
theorem c7_witness :
    (brokerRequestWithPayment "/run" wOptions wEnv200).walletUsed = false ∧
    (brokerRequestWithPayment "/run" wOptions wEnv200).signings = 0 ∧
    (brokerRequestWithPayment "/run" wOptions wEnv200).requests.length = 1 ∧
    (brokerRequestWithPayment "/run" wOptions wEnv200).result = .ok "job done" :=
  ⟨(c7_non402_passthrough "/run" wOptions wEnv200 (by decide)).1,
    (c7_non402_passthrough "/run" wOptions wEnv200 (by decide)).2.1,
    (c7_non402_passthrough "/run" wOptions wEnv200 (by decide)).2.2.1,
    (c7_non402_passthrough "/run" wOptions wEnv200 (by decide)).2.2.2.1 (by decide)⟩

/-! ### Claim C2: the value attached under the payment header -/

/-- Environment for a paid run: 402 challenge, then a 200 retry. -/
def wEnvPaid : ExecEnv :=
  { response1 := { status := 402, body := "challenge" }
    challenge := some wChallenge
    walletAvailable := true
    accounts := ["0xU"]
    sign := wCtx
    response2 := { status := 200, body := "ok" } }

/-- The base64 payment header `createX402Payment` returns for the
shared fixture. -/
def wHeader : String :=
  match createX402Payment wChallenge "0xU" wCtx with
  | .ok (ph, _) => ph
  | .error _ => ""

/-- The `PaymentInfo` `createX402Payment` returns for the shared
fixture. -/
def wInfo : PaymentInfo :=
  match createX402Payment wChallenge "0xU" wCtx with
  | .ok (_, info) => info
  | .error _ => { network := "", spender := "", asset := "", userAddress := "" }

/-- C2, evaluated at the failing input: the retried request does reuse
the original method, body and headers and adds exactly one header, but
the value attached under `X-Payment` is
`JSON.stringify({ paymentHeader, paymentInfo })` — the serialization of
the whole `createX402Payment` result — and not the base64
`paymentHeader` string itself. -/
theorem c2_wrapped_header_value :
    ((brokerRequestWithPayment "/run" wOptions wEnvPaid).requests.map
        BrokerRequest.method) = [some "POST", some "POST"] ∧
    ((brokerRequestWithPayment "/run" wOptions wEnvPaid).requests.map
        BrokerRequest.body) = [some "payload", some "payload"] ∧
    ((brokerRequestWithPayment "/run" wOptions wEnvPaid).requests.map
        BrokerRequest.headers) =
      [[("Content-Type", "application/json"), ("Accept", "application/json")],
        [("Content-Type", "application/json"), ("Accept", "application/json"),
          ("X-Payment", renderPaymentResult wHeader wInfo)]] ∧
    renderPaymentResult wHeader wInfo ≠ wHeader := by
  refine ⟨by decide, by decide, by decide, by decide⟩

/-! ### Claim C6: encode/decode round trip of the payment token -/

/-- C6: decoding the base64 payment token as `createX402Payment` does
reproduces the whole encoded `paymentData`, and in particular the
network label, payer (`from`) and payee (`to`). -/
theorem c6_roundtrip (d : PaymentData) (h : cleanData d) :
    decodePaymentHeader (encodePaymentHeader d) = some d ∧
    (decodePaymentHeader (encodePaymentHeader d)).map PaymentData.network =
      some d.network ∧
    (decodePaymentHeader (encodePaymentHeader d)).map
        (fun p => p.payload.authorization.fromAddr) =
      some d.payload.authorization.fromAddr ∧
    (decodePaymentHeader (encodePaymentHeader d)).map
        (fun p => p.payload.authorization.toAddr) =
      some d.payload.authorization.toAddr := by
  have hrt := decode_encodePaymentHeader d h
  exact ⟨hrt, by rw [hrt]; rfl, by rw [hrt]; rfl, by rw [hrt]; rfl⟩

/-- Concrete signed payment for the C6 witness. -/
def c6Data : PaymentData :=
  { scheme := "exact"
    network := "avalanche"
    payload :=
      { signature := "0xS"
        authorization :=
          { fromAddr := "0xF", toAddr := "0xT", value := "5"
            validAfter := "100", validBefore := "1000", nonce := "0xN" } } }

/-- C6, witness at a concrete signed payment. -/
theorem c6_witness :
    cleanData c6Data ∧
    decodePaymentHeader (encodePaymentHeader c6Data) = some c6Data ∧
    (decodePaymentHeader (encodePaymentHeader c6Data)).map
        PaymentData.network = some c6Data.network :=
  ⟨by decide, (c6_roundtrip c6Data (by decide)).1,
    (c6_roundtrip c6Data (by decide)).2.1⟩

/-! ### Claim C9: the revocation helper -/

theorem pollLoop_le (receipts : Nat → Option TxReceipt) :
    ∀ (fuel polls sleepMs : Nat),
      (pollLoop receipts fuel polls sleepMs).2.1 ≤ polls + fuel ∧
      (pollLoop receipts fuel polls sleepMs).2.2 ≤ sleepMs + 2000 * fuel := by
  intro fuel
  induction fuel with
  | zero => intro p s; simp [pollLoop]
  | succ n ih =>
    intro p s
    simp only [pollLoop]
    cases hr : receipts p with
    | some r => constructor <;> simp
    | none =>
      have h2 := ih (p + 1) (s + 2000)
      constructor
      · exact le_trans h2.1 (by omega)
      · exact le_trans h2.2 (by omega)

theorem pollLoop_allNone (receipts : Nat → Option TxReceipt)
    (h : ∀ i, receipts i = none) :
    ∀ (fuel polls sleepMs : Nat),
      pollLoop receipts fuel polls sleepMs =
        (none, polls + fuel, sleepMs + 2000 * fuel) := by
  intro fuel
  induction fuel with
  | zero => intro p s; simp [pollLoop]
  | succ n ih =>
    intro p s
    simp only [pollLoop, h p]
    rw [ih (p + 1) (s + 2000)]
    simp [Prod.ext_iff]
    omega

/-- A fixed revocation target used by the C9 theorems. -/
def c9Info : PaymentInfo :=
  { network := "avalanche", spender := "0xCAFE", asset := "0xA"
    userAddress := "0xU" }

/-- Receipts never arrive: the timeout path. -/
def c9EnvTimeout : RevokeEnv :=
  { walletAvailable := true, accounts := ["0xU"], receipts := fun _ => none }

/-- The first receipt reports on-chain failure (`status = '0x0'`). -/
def c9EnvFailed : RevokeEnv :=
  { walletAvailable := true, accounts := ["0xU"]
    receipts := fun _ => some { status := some "0x0" } }

/-- C9, counterexample: exhausting the 30-attempt budget and receiving
a failed receipt produce the *same* error — the two failure modes the
claim calls distinguishable are not distinguishable. -/
theorem c9_counterexample :
    (revokeApproval c9Info c9EnvTimeout).result =
      (revokeApproval c9Info c9EnvFailed).result ∧
    (revokeApproval c9Info c9EnvTimeout).result =
      .error "Failed to revoke approval: Revocation transaction failed" ∧
    (revokeApproval c9Info c9EnvTimeout).polls = 30 ∧
    (revokeApproval c9Info c9EnvFailed).polls = 1 := by
  refine ⟨by decide, by decide, by decide, by decide⟩

/-- C9, amended: the calldata is selector ++ zero-padded spender ++
64 zero characters, the loop polls at most 30 times with 2000 ms sleep
after each miss (at most 60 s), and both budget exhaustion and a
`'0x0'`-status receipt yield the *same* error
`'Failed to revoke approval: Revocation transaction failed'`. -/
theorem c9_amended (info : PaymentInfo) (env : RevokeEnv)
    (hw : env.walletAvailable = true) :
    (revokeApproval info env).calldata = some (revokeCalldata info) ∧
    (revokeCalldata info).data =
      approveSelector.data ++
        (List.replicate (64 - (removeOx info.spender.data).length) '0' ++
          removeOx info.spender.data) ++
        List.replicate 64 '0' ∧
    (revokeApproval info env).polls ≤ 30 ∧
    (revokeApproval info env).sleepMs ≤ 60000 ∧
    ((∀ i, env.receipts i = none) →
      (revokeApproval info env).result =
        .error "Failed to revoke approval: Revocation transaction failed" ∧
      (revokeApproval info env).polls = 30) ∧
    (env.receipts 0 = some { status := some "0x0" } →
      (revokeApproval info env).result =
        .error "Failed to revoke approval: Revocation transaction failed") := by
  have hb := pollLoop_le env.receipts maxAttempts 0 0
  unfold revokeApproval
  rw [if_pos hw]
  rcases hp : pollLoop env.receipts maxAttempts 0 0 with ⟨receipt, polls, sleep⟩
  rw [hp] at hb
  dsimp only
  refine ⟨?_, ?_, ?_, ?_, ?_, ?_⟩
  · cases receipt with
    | none => rfl
    | some r =>
      dsimp only
      split <;> rfl
  · have hz : padStart64 ['0'] = List.replicate 64 '0' := by decide
    show approveSelector.data ++ padStart64 (removeOx info.spender.data) ++
        padStart64 ['0'] = _
    rw [hz]
    rfl
  · cases receipt with
    | none => simpa [maxAttempts] using hb.1
    | some r =>
      dsimp only
      split <;> simpa [maxAttempts] using hb.1
  · cases receipt with
    | none => simpa [maxAttempts] using hb.2
    | some r =>
      dsimp only
      split <;> simpa [maxAttempts] using hb.2
  · intro hnone
    have hall := pollLoop_allNone env.receipts hnone maxAttempts 0 0
    rw [hp] at hall
    have h1 : receipt = none := congrArg Prod.fst hall
    have h2 : polls = 30 := by
      have := congrArg (fun t => t.2.1) hall
      simpa [maxAttempts] using this
    subst h1
    exact ⟨rfl, h2⟩
  · intro h0
    have hfirst : pollLoop env.receipts maxAttempts 0 0 =
        (some { status := some "0x0" }, 1, 0) := by
      show pollLoop env.receipts (29 + 1) 0 0 = _
      simp only [pollLoop, h0]
    rw [hp] at hfirst
    have h1 : receipt = some { status := some "0x0" } :=
      congrArg Prod.fst hfirst
    subst h1
    dsimp only
    rw [if_pos rfl]

/-- C9, witness: the amended theorem at the concrete timeout
environment. -/
theorem c9_witness :
    c9EnvTimeout.walletAvailable = true ∧
    (revokeApproval c9Info c9EnvTimeout).calldata =
      some (revokeCalldata c9Info) ∧
    (revokeApproval c9Info c9EnvTimeout).polls ≤ 30 ∧
    (revokeApproval c9Info c9EnvTimeout).sleepMs ≤ 60000 :=
  ⟨rfl, (c9_amended c9Info c9EnvTimeout rfl).1,
    (c9_amended c9Info c9EnvTimeout rfl).2.2.1,
    (c9_amended c9Info c9EnvTimeout rfl).2.2.2.1⟩

/-! ### Claim C10: the `fetchWith402` helper -/

/-- C10: on a 402 the helper POSTs the invoice (or the whole body) to
the pay URL; a non-ok pay response throws `"Payment failed"`; an ok pay
response leads to a replay of the original request with exactly the
original arguments and no payment header, whose response — whatever it
is, another 402 included — is returned to the caller. -/
theorem c10_fetchWith402 (input : String) (init : RequestOptions)
    (relay : String) (env : FetchEnv) (h402 : env.initial.status = 402) :
    (env.payResponse.ok = false →
      fetchWith402 input init relay env =
        (.thrown "Payment failed",
          [{ url := input, method := init.method, body := init.body
             headers := init.headers },
           { url := x402PayUrl relay env.parsed, method := some "POST"
             body := some (x402PayBody env.parsed)
             headers := [("Content-Type", "application/json")] }])) ∧
    (env.payResponse.ok = true →
      fetchWith402 input init relay env =
        (.ok env.replay,
          [{ url := input, method := init.method, body := init.body
             headers := init.headers },
           { url := x402PayUrl relay env.parsed, method := some "POST"
             body := some (x402PayBody env.parsed)
             headers := [("Content-Type", "application/json")] },
           { url := input, method := init.method, body := init.body
             headers := init.headers }])) := by
  have hne : ¬ env.initial.status ≠ 402 := fun hne => hne h402
  constructor
  · intro hpay
    unfold fetchWith402
    rw [if_neg hne]
    dsimp only
    rw [if_pos hpay]
  · intro hpay
    unfold fetchWith402
    rw [if_neg hne]
    dsimp only
    rw [if_neg (by simp [hpay])]

/-- Concrete environment for the C10 witness: the replay is answered
with another 402, which the helper passes straight back. -/
def c10Env : FetchEnv :=
  { initial := { status := 402, body := "invoice" }
    parsed := some { payUrl := some "https://relay.example/pay"
                     invoice := some "inv", whole := "whole" }
    payResponse := { status := 200, body := "paid" }
    replay := { status := 402, body := "still 402" } }

def c10Init : RequestOptions :=
  { method := some "GET", body := none, headers := [("Accept", "text/plain")] }

/-- C10, witness: the ok-pay branch of the theorem at a concrete
environment whose replay is itself a 402. -/
theorem c10_witness :
    c10Env.initial.status = 402 ∧
    c10Env.payResponse.ok = true ∧
    fetchWith402 "https://api.example/run" c10Init "https://relay.example"
        c10Env =
      (.ok c10Env.replay,
        [{ url := "https://api.example/run", method := c10Init.method
           body := c10Init.body, headers := c10Init.headers },
         { url := x402PayUrl "https://relay.example" c10Env.parsed
           method := some "POST"
           body := some (x402PayBody c10Env.parsed)
           headers := [("Content-Type", "application/json")] },
         { url := "https://api.example/run", method := c10Init.method
           body := c10Init.body, headers := c10Init.headers }]) :=
  ⟨rfl, rfl,
    (c10_fetchWith402 "https://api.example/run" c10Init "https://relay.example"
      c10Env rfl).2 rfl⟩

end X402
